import Mathlib

/-!
Verification development for the schedule-generation engine of the
courses-ai backend (`backend/services/schedule_generator.py`, with data
models from `backend/models/course.py` and `backend/models/schedule.py`).

Modelling conventions:
* Times of day (`datetime.time`) are modelled as minutes since midnight
  (`Nat`); the Python code only compares times, and every boundary constant
  it uses is a whole minute, so the embedding is order-faithful.
* Python `float` values (credits, weights, scores) are modelled as exact
  rationals, and as reals once the one irrational operation
  (`variance ** 0.5` in the workload-balance bonus) enters.
* `Optional[X]` fields are `Option X`; Python truthiness tests on them
  (`if section.credits:` etc.) are spelled out at each use site: `none`,
  numeric `0`, the empty list and the empty string are all falsy.
* Python `dict`s (insertion-ordered) are association lists that preserve
  key-insertion order, matching iteration order of `defaultdict` loops.
* Exceptions are `Except ScheduleGeneratorError`; a bare Python error such
  as `ZeroDivisionError` is an error value whose `error_code` is `none`.
* The two wall-clock reads of `generate_schedules` (`datetime.now()` at
  entry, and again when options are built / timing is measured) are
  explicit parameters `t0 t1 : Nat`; the random-sampling fallback of
  `_sample_combinations` is only reachable on `MemoryError`, which has no
  counterpart here, so the enumeration path is the exact cartesian product.
-/

namespace CoursesAI

/-- `models/course.py` `Timeslot`: start/end times of one meeting block,
in minutes since midnight. -/
structure Timeslot where
  start_time : Nat
  end_time : Nat
deriving DecidableEq, Repr

/-- `models/course.py` `Meeting`: one weekly meeting pattern.  `days` is the
raw day string (e.g. "MWF"); Python code takes `set(meeting.days)`, i.e. the
set of its characters. -/
structure Meeting where
  timeslots : List Timeslot
  days : String
  location : Option String := none
  start_date : Option String := none
  end_date : Option String := none
deriving DecidableEq, Repr

/-- `models/course.py` `Professor` (fields the generator reads). -/
structure Professor where
  id : Option Int := none
  name : String
  email : Option String := none
  rating : Option ℚ := none
  workload : Option ℚ := none
  oci : Option ℚ := none
deriving DecidableEq, Repr

/-- `models/course.py` `Section`.  `final_exam` is the optional
`Dict[str, Any]` record, modelled as an association list of string keys and
string values (the generator only reads the `date` entry).  `credits` is
not a declared pydantic field of `Section` but an `extra = "allow"`
attribute that the generator reads (`section.credits or 0`); an instance
carrying no such attribute is modelled as `none`, like an explicit `None`
(both are falsy where the generator tests them). -/
structure Section where
  id : String
  course_id : String
  «section» : String := "01"
  crn : Option Int := none
  season_code : String := "202401"
  teaching_method : Option String := none
  capacity : Option Int := none
  enrolled : Option Int := none
  waitlist : Option Int := none
  meetings : Option (List Meeting) := none
  professors : Option (List Professor) := none
  notes : Option String := none
  final_exam : Option (List (String × String)) := none
  credits : Option ℚ := none
deriving DecidableEq, Repr

/-- `models/schedule.py` `ScheduleConflict`. -/
structure ScheduleConflict where
  section1_id : String
  section2_id : String
  conflict_type : String
  details : String
  severity : String
deriving DecidableEq, Repr

/-- `models/schedule.py` `ScheduleConstraints`.  `min_quality_score` models
the `extra = "allow"` attribute bag: the field is `some m` exactly when the
caller supplied a `min_quality_score` attribute (read back through
`hasattr`/`getattr` in `generate_schedules`). -/
structure ScheduleConstraints where
  min_credits : Option ℚ := none
  max_credits : Option ℚ := none
  max_gap_minutes : Option Int := none
  no_early_morning : Bool := false
  no_late_evening : Bool := false
  preferred_days : Option (List String) := none
  avoid_times : Option (List String) := none
  break_hours : Option (List String) := some []
  min_quality_score : Option ℚ := none
deriving DecidableEq, Repr

/-- `models/schedule.py` `SchedulePreferences`. -/
structure SchedulePreferences where
  workload_weight : ℚ := 3/10
  rating_weight : ℚ := 3/10
  time_preference_weight : ℚ := 2/10
  professor_weight : ℚ := 2/10
  preferred_professors : Option (List String) := none
  avoided_professors : Option (List String) := none
  preferred_time_blocks : Option (List String) := none
  avoid_time_blocks : Option (List String) := none
deriving DecidableEq, Repr

/-- `models/schedule.py` `ScheduleRequest`. -/
structure ScheduleRequest where
  course_ids : List String
  season_code : String
  constraints : Option ScheduleConstraints := none
  preferences : Option SchedulePreferences := none
  max_options : Nat := 5
  include_full_sections : Bool := false
deriving DecidableEq, Repr

/-- The per-option `metadata` dict built in `generate_schedules`
(`generation_time`, `course_count`, `has_conflicts`). -/
structure OptionMetadata where
  generation_time : Nat
  course_count : Nat
  has_conflicts : Bool
deriving DecidableEq, Repr

/-- `models/schedule.py` `ScheduleOption`. -/
structure ScheduleOption where
  sections : List Section
  total_credits : ℚ
  quality_score : ℝ
  conflicts : List String
  metadata : OptionMetadata

/-- The response-level `metadata` dict built in `generate_schedules`. -/
structure GeneratedMetadata where
  courses_requested : List String
  valid_schedules_found : Nat
  schedules_with_conflicts : Nat
  average_quality : ℝ
  constraints_applied : Bool
  preferences_applied : Bool

/-- `models/schedule.py` `GeneratedSchedule`. -/
structure GeneratedSchedule where
  request_id : String
  season_code : String
  options : List ScheduleOption
  total_options_generated : Nat
  processing_time_ms : Nat
  metadata : GeneratedMetadata

/-- `ScheduleGeneratorError` from `schedule_generator.py`: a message plus an
optional `error_code`. -/
structure ScheduleGeneratorError where
  message : String
  error_code : Option String
deriving DecidableEq, Repr

/-- The `available_sections` argument: `Dict[str, List[Section]]`, an
insertion-ordered map from course id to candidate sections. -/
abbrev SectionMap := List (String × List Section)

/-- Python `repr` of an optional int (`None` / the decimal numeral), as
interpolated into the same-professor conflict detail string. -/
def pyReprOptInt : Option Int → String
  | none => "None"
  | some i => toString i

/-- Python `repr` of a list of strings, as interpolated into the
`NO_SECTIONS_AVAILABLE` message (single-quoted elements in brackets). -/
def pyReprStrList (l : List String) : String :=
  "[" ++ String.intercalate ", " (l.map (fun s => "\x27" ++ s ++ "\x27")) ++ "]"

/-! ### Time and conflict primitives -/

/-- `_timeslots_overlap`: half-open interval overlap test. -/
def timeslotsOverlap (t1 t2 : Timeslot) : Bool :=
  t1.start_time < t2.end_time && t2.start_time < t1.end_time

/-- Day-set intersection test: Python `set(m1.days) & set(m2.days)` is
nonempty iff the two day strings share a character. -/
def daysIntersect (d1 d2 : String) : Bool :=
  d1.toList.any fun c => d2.toList.contains c

/-- `_sections_have_time_conflict`: any meeting pair on a common day with an
overlapping timeslot pair.  An absent or empty meeting list yields `false`
(the Python guard `if not section1.meetings or not section2.meetings`,
subsumed here by `List.any` over the empty list). -/
def sectionsHaveTimeConflict (s1 s2 : Section) : Bool :=
  match s1.meetings, s2.meetings with
  | some ms1, some ms2 =>
      ms1.any fun m1 => ms2.any fun m2 =>
        daysIntersect m1.days m2.days &&
        m1.timeslots.any fun t1 => m2.timeslots.any fun t2 =>
          timeslotsOverlap t1 t2
  | _, _ => false

/-- `_detect_time_conflicts`: one `time`/`error` conflict per unordered pair
of sections (outer index `i`, inner over `sections[i+1:]`) that has a time
conflict. -/
def detectTimeConflicts : List Section → List ScheduleConflict
  | [] => []
  | s1 :: rest =>
      (rest.filterMap fun s2 =>
        if sectionsHaveTimeConflict s1 s2 then
          some { section1_id := s1.id, section2_id := s2.id,
                 conflict_type := "time",
                 details := "Time conflict between " ++ s1.course_id ++
                            " and " ++ s2.course_id,
                 severity := "error" }
        else none) ++ detectTimeConflicts rest

/-- Ordered-`dict` upsert used to model the `defaultdict(list)` groupings:
append `s` to the entry of key `k`, or add a new `(k, [s])` entry at the
end, preserving key-insertion order. -/
def addToGroups {κ : Type} [DecidableEq κ]
    (gs : List (κ × List Section)) (k : κ) (s : Section) :
    List (κ × List Section) :=
  match gs with
  | [] => [(k, [s])]
  | (k', ss) :: rest =>
      if k' = k then (k', ss ++ [s]) :: rest
      else (k', ss) :: addToGroups rest k s

/-- The `exam_schedules` grouping of `_detect_exam_conflicts`: sections
grouped by their final-exam date.  A section participates only if its
`final_exam` dict is present with a truthy `date` entry (the guards
`if section.final_exam and 'date' in section.final_exam` and
`if exam_date`). -/
def examGroups (sections : List Section) : List (String × List Section) :=
  sections.foldl
    (fun gs s =>
      match s.final_exam with
      | some fe =>
          match fe.lookup "date" with
          | some d => if d ≠ "" then addToGroups gs d s else gs
          | none => gs
      | none => gs)
    []

/-- All ordered pairs `i < j` of a section list, each mapped to a conflict
record (the nested `for i, s1 … for s2 in xs[i+1:]` loops). -/
def pairConflicts (mk : Section → Section → ScheduleConflict) :
    List Section → List ScheduleConflict
  | [] => []
  | s1 :: rest => rest.map (mk s1) ++ pairConflicts mk rest

/-- `_detect_exam_conflicts`: one `final_exam`/`error` conflict per pair of
sections sharing an exam date (groups of size `≤ 1` contribute nothing, so
the `len(exam_sections) > 1` guard is subsumed). -/
def detectExamConflicts (sections : List Section) : List ScheduleConflict :=
  (examGroups sections).flatMap fun g =>
    pairConflicts
      (fun s1 s2 =>
        { section1_id := s1.id, section2_id := s2.id,
          conflict_type := "final_exam",
          details := "Final exam conflict on " ++ g.1,
          severity := "error" })
      g.2

/-- The `professor_sections` grouping of `_detect_professor_conflicts`: each
section is appended once per professor it lists, under that professor's
(optional) `id` as the key.  A `none`/empty professor list contributes
nothing (the `if section.professors` truthiness guard). -/
def professorGroups (sections : List Section) :
    List (Option Int × List Section) :=
  sections.foldl
    (fun gs s =>
      match s.professors with
      | some ps => ps.foldl (fun gs p => addToGroups gs p.id s) gs
      | none => gs)
    []

/-- `_detect_professor_conflicts`: one `same_professor`/`warning` conflict
per professor-id group holding more than one (occurrence of a) section,
naming the first two entries of the group. -/
def detectProfessorConflicts (sections : List Section) :
    List ScheduleConflict :=
  (professorGroups sections).filterMap fun g =>
    match g.2 with
    | s1 :: s2 :: _ =>
        some { section1_id := s1.id, section2_id := s2.id,
               conflict_type := "same_professor",
               details := "Multiple sections with same professor (ID: " ++
                          pyReprOptInt g.1 ++ ")",
               severity := "warning" }
    | _ => none

/-- `_detect_conflicts`: time conflicts, then exam conflicts, then
professor warnings. -/
def detectConflicts (sections : List Section) : List ScheduleConflict :=
  detectTimeConflicts sections ++ detectExamConflicts sections ++
    detectProfessorConflicts sections

/-! ### Request validation and section filtering -/

/-- The `missing_courses` list of `_validate_request`: requested course ids
absent from `available_sections` or mapped to an empty list. -/
def missingCourses (req : ScheduleRequest) (avail : SectionMap) :
    List String :=
  req.course_ids.filter fun cid =>
    match avail.lookup cid with
    | none => true
    | some ss => ss.isEmpty

/-- Python truthiness of an optional number (`None` and `0` are falsy). -/
def truthyQ (q : Option ℚ) : Bool :=
  match q with
  | none => false
  | some x => x ≠ 0

/-- `_validate_request`: missing-course check first, then the credit-bound
check — the latter only fires when both bounds are truthy (Python
`constraints.min_credits and constraints.max_credits`). -/
def validateRequest (req : ScheduleRequest) (avail : SectionMap) :
    Except ScheduleGeneratorError Unit :=
  if missingCourses req avail ≠ [] then
    .error { message := "No available sections for courses: " ++
                        pyReprStrList (missingCourses req avail),
             error_code := some "NO_SECTIONS_AVAILABLE" }
  else
    match req.constraints with
    | some c =>
        if truthyQ c.min_credits && truthyQ c.max_credits &&
            c.min_credits.getD 0 > c.max_credits.getD 0 then
          .error { message :=
                     "Minimum credits cannot be greater than maximum credits",
                   error_code := some "INVALID_CREDIT_CONSTRAINTS" }
        else .ok ()
    | none => .ok ()

/-- `_violates_constraints`: scan every meeting and every timeslot; any
single violating timeslot disqualifies the section.  The per-timeslot
checks are early-morning start (before 9:00), late-evening end (after
20:00), and — when `preferred_days` is supplied — empty intersection of the
meeting's day characters with the preferred-day strings. -/
def violatesConstraints (s : Section) (c : ScheduleConstraints) : Bool :=
  match s.meetings with
  | none => false
  | some ms =>
      ms.any fun m => m.timeslots.any fun ts =>
        (c.no_early_morning && ts.start_time < 9 * 60) ||
        (c.no_late_evening && ts.end_time > 20 * 60) ||
        (match c.preferred_days with
         | some pd =>
             !pd.isEmpty &&
               !(m.days.toList.any fun d => pd.contains (String.singleton d))
         | none => false)

/-- The availability test of `_filter_sections`: the section is skipped
when full sections are excluded, both `capacity` and `enrolled` are truthy
(present and nonzero), and `enrolled ≥ capacity`. -/
def sectionDropFull (includeFull : Bool) (s : Section) : Bool :=
  match includeFull, s.capacity, s.enrolled with
  | false, some cap, some enr => cap ≠ 0 && enr ≠ 0 && enr ≥ cap
  | _, _, _ => false

/-- Whether `_filter_sections` keeps a section: not dropped as full, and —
when constraints are supplied — not in violation of them. -/
def keepSection (constraints : Option ScheduleConstraints)
    (includeFull : Bool) (s : Section) : Bool :=
  !sectionDropFull includeFull s &&
    (match constraints with
     | some c => !violatesConstraints s c
     | none => true)

/-- `_filter_sections`: filter each course's sections and drop courses left
with no surviving section. -/
def filterSections (avail : SectionMap)
    (constraints : Option ScheduleConstraints) (includeFull : Bool) :
    SectionMap :=
  avail.filterMap fun entry =>
    let fs := entry.2.filter (keepSection constraints includeFull)
    if fs.isEmpty then none else some (entry.1, fs)

/-! ### Combination generation -/

/-- `itertools.product` over a list of lists, leftmost factor varying
slowest. -/
def listProduct {α : Type} : List (List α) → List (List α)
  | [] => [[]]
  | xs :: rest => xs.flatMap fun x => (listProduct rest).map (x :: ·)

/-- `_generate_section_combinations` (exact-enumeration path): cartesian
product of the per-course section lists, or `[]` when the filtered map is
empty.  The `MemoryError`-triggered sampling fallback has no counterpart in
this embedding. -/
def generateSectionCombinations (filtered : SectionMap) :
    List (List Section) :=
  if filtered.isEmpty then [] else listProduct (filtered.map (·.2))

/-- The combination pool of one `generate_schedules` run. -/
def allCombinations (req : ScheduleRequest) (avail : SectionMap) :
    List (List Section) :=
  generateSectionCombinations
    (filterSections avail req.constraints req.include_full_sections)

/-- The `valid_schedules` list: a combination (paired with its conflicts)
survives when its conflict list is empty or when no constraints object was
supplied (`if not conflicts or request.constraints is None`). -/
def validCombos (req : ScheduleRequest) (avail : SectionMap) :
    List (List Section × List ScheduleConflict) :=
  (allCombinations req avail).filterMap fun combo =>
    let cs := detectConflicts combo
    if cs.isEmpty || req.constraints.isNone then some (combo, cs) else none

/-! ### Quality scoring -/

/-- `sum(section.credits or 0 for section in sections)`. -/
def totalCredits (sections : List Section) : ℚ :=
  (sections.map fun s => s.credits.getD 0).sum

/-- The conflict penalty of `_calculate_quality_score`: 25 per `error`
conflict, 10 per `warning` conflict. -/
def conflictPenalty (conflicts : List ScheduleConflict) : ℚ :=
  conflicts.foldl
    (fun acc c =>
      if c.severity = "error" then acc + 25
      else if c.severity = "warning" then acc + 10
      else acc)
    0

/-- `SchedulePreferences.validate_weights`: the four weights sum to 1
within tolerance 0.01. -/
def validateWeights (p : SchedulePreferences) : Bool :=
  |p.workload_weight + p.rating_weight + p.time_preference_weight +
    p.professor_weight - 1| < 1/100

/-- Membership of a professor name in an optional name list; the Python
truthiness guard on the list is subsumed (an empty list contains nothing). -/
def nameInOptList (l : Option (List String)) (n : String) : Bool :=
  match l with
  | some names => names.contains n
  | none => false

/-- The inner professor loop of `_calculate_professor_preference_score`:
a preferred professor returns 100 immediately, an avoided one returns 0
immediately, otherwise a truthy rating overwrites the running score with
`rating / 5 * 100` and the loop continues from that value. -/
def sectionProfessorScore (p : SchedulePreferences) (cur : ℚ) :
    List Professor → ℚ
  | [] => cur
  | prof :: rest =>
      if nameInOptList p.preferred_professors prof.name then 100
      else if nameInOptList p.avoided_professors prof.name then 0
      else
        sectionProfessorScore p
          (if truthyQ prof.rating then prof.rating.getD 0 / 5 * 100 else cur)
          rest

/-- `_calculate_professor_preference_score`: average the per-section
professor scores over the sections with a truthy professor list, starting
each section at the neutral 50; 50 when no section counts. -/
def professorPreferenceScore (sections : List Section)
    (p : SchedulePreferences) : ℚ :=
  if sections.isEmpty then 50
  else
    let tc := sections.foldl
      (fun (tc : ℚ × Nat) s =>
        match s.professors with
        | some ps =>
            if ps.isEmpty then tc
            else (tc.1 + sectionProfessorScore p 50 ps, tc.2 + 1)
        | none => tc)
      (0, 0)
    if tc.2 > 0 then tc.1 / tc.2 else 50

/-- `_calculate_time_preference_score`: start at 75, subtract 10 per
timeslot starting before 8:00 — or, failing that, ending after 21:00 —
and floor the result at 0. -/
def timePreferenceScore (sections : List Section)
    (p : SchedulePreferences) : ℚ :=
  if sections.isEmpty then 50
  else
    let score := sections.foldl
      (fun sc s =>
        match s.meetings with
        | some ms =>
            ms.foldl
              (fun sc m =>
                m.timeslots.foldl
                  (fun sc ts =>
                    if ts.start_time < 8 * 60 then sc - 10
                    else if ts.end_time > 21 * 60 then sc - 10
                    else sc)
                  sc)
              sc
        | none => sc)
      (75 : ℚ)
    max 0 score

/-- `_calculate_workload_score`: 100 for 12–18 total credits, 50 below,
and a 5-point penalty per credit above 18 (floored at 0). -/
def workloadScore (sections : List Section) (p : SchedulePreferences) : ℚ :=
  let tc := totalCredits sections
  if 12 ≤ tc ∧ tc ≤ 18 then 100
  else if tc < 12 then 50
  else max 0 (100 - (tc - 18) * 5)

/-- `_calculate_rating_score`: average `rating / 5 * 100` over every
professor with a truthy rating across all sections; 50 when none has
one. -/
def ratingScore (sections : List Section) (p : SchedulePreferences) : ℚ :=
  let tc := sections.foldl
    (fun (tc : ℚ × Nat) s =>
      match s.professors with
      | some ps =>
          ps.foldl
            (fun tc prof =>
              if truthyQ prof.rating then
                (tc.1 + prof.rating.getD 0 / 5 * 100, tc.2 + 1)
              else tc)
            tc
      | none => tc)
    (0, 0)
  if tc.2 > 0 then tc.1 / tc.2 else 50

/-- `_calculate_preference_score`: the weighted blend of the four
sub-scores, or a fixed 50 when the weights fail validation. -/
def preferenceScore (sections : List Section)
    (p : SchedulePreferences) : ℚ :=
  if !validateWeights p then 50
  else
    professorPreferenceScore sections p * p.professor_weight +
    timePreferenceScore sections p * p.time_preference_weight +
    workloadScore sections p * p.workload_weight +
    ratingScore sections p * p.rating_weight

/-- `_get_time_block`: the first clock range of `self.time_preferences`
containing the time, in the dict's insertion order, else `"other"`. -/
def getTimeBlock (t : Nat) : String :=
  if 6 * 60 ≤ t ∧ t ≤ 8 * 60 + 59 then "early_morning"
  else if 9 * 60 ≤ t ∧ t ≤ 11 * 60 + 59 then "morning"
  else if 12 * 60 ≤ t ∧ t ≤ 14 * 60 + 59 then "midday"
  else if 15 * 60 ≤ t ∧ t ≤ 17 * 60 + 59 then "afternoon"
  else if 18 * 60 ≤ t ∧ t ≤ 21 * 60 + 59 then "evening"
  else if 22 * 60 ≤ t ∧ t ≤ 23 * 60 + 59 then "late_night"
  else "other"

/-- The distinct time blocks hit by the timeslot start times, in first-use
order (the keys of the `time_block_counts` defaultdict). -/
def timeBlocksUsed (sections : List Section) : List String :=
  sections.foldl
    (fun bs s =>
      match s.meetings with
      | some ms =>
          ms.foldl
            (fun bs m =>
              m.timeslots.foldl
                (fun bs ts =>
                  let b := getTimeBlock ts.start_time
                  if bs.contains b then bs else bs ++ [b])
                bs)
            bs
      | none => bs)
    []

/-- `_calculate_time_distribution_score`: `min(2 * distinct blocks, 10)`,
or 0 for an empty section list. -/
def timeDistributionScore (sections : List Section) : ℚ :=
  if sections.isEmpty then 0
  else min (2 * (timeBlocksUsed sections).length) 10

/-- Ordered upsert for the `daily_credits` defaultdict: add `x` to the
entry of day `d`, inserting a fresh entry at the end on first use. -/
def dailyAdd (dc : List (Char × ℚ)) (d : Char) (x : ℚ) :
    List (Char × ℚ) :=
  match dc with
  | [] => [(d, x)]
  | (d', y) :: rest =>
      if d' = d then (d', y + x) :: rest else (d', y) :: dailyAdd rest d x

/-- The loop body of the `daily_credits` computation for one meeting:
`days_credit = section.credits / len(meeting.days)` — a `ZeroDivisionError`
when the day string is empty — added to each day's running total. -/
def meetingDailyStep (c : ℚ) (dc : List (Char × ℚ)) (m : Meeting) :
    Except ScheduleGeneratorError (List (Char × ℚ)) :=
  if m.days.length = 0 then
    .error { message := "float division by zero", error_code := none }
  else
    .ok (m.days.toList.foldl
      (fun dc d => dailyAdd dc d (c / m.days.length)) dc)

/-- One section's contribution to `daily_credits`: skipped entirely unless
both `meetings` and `credits` are truthy. -/
def sectionDailyCredits (dc : List (Char × ℚ)) (s : Section) :
    Except ScheduleGeneratorError (List (Char × ℚ)) :=
  match s.meetings, s.credits with
  | some ms, some c =>
      if ms.isEmpty || c = 0 then .ok dc
      else ms.foldlM (meetingDailyStep c) dc
  | _, _ => .ok dc

/-- The `daily_credits` map of `_calculate_workload_balance`. -/
def dailyCredits (sections : List Section) :
    Except ScheduleGeneratorError (List (Char × ℚ)) :=
  sections.foldlM sectionDailyCredits []

/-- Population variance of a list of rationals (`variance` in
`_calculate_workload_balance`). -/
def populationVariance (vals : List ℚ) : ℚ :=
  let avg := vals.sum / vals.length
  ((vals.map fun x => (x - avg) ^ 2).sum) / vals.length

/-- `_calculate_workload_balance`: 0 for an empty section list or an empty
`daily_credits` map, else `max(0, 10 - stddev)` where `stddev` is the
population standard deviation of the per-day credit totals. -/
noncomputable def calculateWorkloadBalance (sections : List Section) :
    Except ScheduleGeneratorError ℝ :=
  if sections.isEmpty then .ok 0
  else do
    let dc ← dailyCredits sections
    if dc.isEmpty then pure 0
    else
      pure (max 0
        (10 - Real.sqrt ((populationVariance (dc.map (·.2)) : ℚ) : ℝ)))

/-- `_calculate_quality_score`: conflict penalties off a base of 100, an
optional 70/30 blend with the preference score, the workload-balance and
time-distribution bonuses, and a final clamp to `[0, 100]`.  The result is
an `Except` because the workload-balance bonus can raise
`ZeroDivisionError`. -/
noncomputable def calculateQualityScore (sections : List Section)
    (conflicts : List ScheduleConflict)
    (preferences : Option SchedulePreferences) :
    Except ScheduleGeneratorError ℝ := do
  let base : ℚ := 100 - conflictPenalty conflicts
  let final1 : ℚ :=
    match preferences with
    | some p => base * (7/10) + preferenceScore sections p * (3/10)
    | none => base
  let balanceBonus ← calculateWorkloadBalance sections
  let finalScore : ℝ :=
    (final1 : ℝ) + balanceBonus + (timeDistributionScore sections : ℝ)
  pure (max 0 (min 100 finalScore))

/-! ### The generation pipeline -/

/-- Build one `ScheduleOption` from a scored combination (`t1` is the
wall-clock value recorded in the option's metadata). -/
def mkScheduleOption (t1 : Nat) (secs : List Section)
    (confs : List ScheduleConflict) (q : ℝ) : ScheduleOption :=
  { sections := secs,
    total_credits := totalCredits secs,
    quality_score := q,
    conflicts := confs.map (·.details),
    metadata := { generation_time := t1,
                  course_count := secs.length,
                  has_conflicts := !confs.isEmpty } }

/-- Score one surviving combination (the body of the scoring loop). -/
noncomputable def scoreCombo (t1 : Nat)
    (preferences : Option SchedulePreferences)
    (pc : List Section × List ScheduleConflict) :
    Except ScheduleGeneratorError ScheduleOption := do
  let q ← calculateQualityScore pc.1 pc.2 preferences
  pure (mkScheduleOption t1 pc.1 pc.2 q)

/-- The comparison used for `scored_schedules.sort(key=…, reverse=True)`:
a Python stable descending sort is a stable merge sort under the
"greater-or-equal score" relation. -/
noncomputable def scoreDescLE (a b : ScheduleOption) : Bool :=
  decide (b.quality_score ≤ a.quality_score)

/-- The post-truncation minimum-quality filter: applied only when a
constraints object is present and carries a `min_quality_score`
attribute. -/
noncomputable def minQualityFilter (constraints : Option ScheduleConstraints)
    (opts : List ScheduleOption) : List ScheduleOption :=
  match constraints with
  | some c =>
      match c.min_quality_score with
      | some m => opts.filter fun o => decide ((m : ℝ) ≤ o.quality_score)
      | none => opts
  | none => opts

/-- The scored options of one run, in generation order. -/
noncomputable def scoredSchedules (t1 : Nat) (req : ScheduleRequest)
    (avail : SectionMap) :
    Except ScheduleGeneratorError (List ScheduleOption) :=
  (validCombos req avail).mapM (scoreCombo t1 req.preferences)

/-- The body of `generate_schedules` inside its `try`: validate, filter,
enumerate, detect conflicts, score, sort descending (stably), truncate to
`max_options`, apply the optional quality threshold, and assemble the
response. -/
noncomputable def generateBody (t0 t1 : Nat) (req : ScheduleRequest)
    (avail : SectionMap) :
    Except ScheduleGeneratorError GeneratedSchedule := do
  validateRequest req avail
  let scored ← scoredSchedules t1 req avail
  let sorted := scored.mergeSort scoreDescLE
  let selected := minQualityFilter req.constraints (sorted.take req.max_options)
  pure
    { request_id := "schedule_" ++ toString t0,
      season_code := req.season_code,
      options := selected,
      total_options_generated := (allCombinations req avail).length,
      processing_time_ms := t1 - t0,
      metadata :=
        { courses_requested := req.course_ids,
          valid_schedules_found := (validCombos req avail).length,
          schedules_with_conflicts :=
            (selected.filter fun s => !s.conflicts.isEmpty).length,
          average_quality :=
            if selected.isEmpty then 0
            else (selected.map (·.quality_score)).sum / selected.length,
          constraints_applied := !req.constraints.isNone,
          preferences_applied := !req.preferences.isNone } }

/-- `generate_schedules`: the `try` body, with every escaping exception —
including the `ScheduleGeneratorError`s raised by validation — re-wrapped
by the catch-all `except Exception` into a new error whose code is
`GENERATION_FAILED` and whose message prefixes the original one. -/
noncomputable def generate_schedules (t0 t1 : Nat) (req : ScheduleRequest)
    (avail : SectionMap) :
    Except ScheduleGeneratorError GeneratedSchedule :=
  match generateBody t0 t1 req avail with
  | .ok r => .ok r
  | .error e =>
      .error { message := "Schedule generation failed: " ++ e.message,
               error_code := some "GENERATION_FAILED" }

/-! ### Derived notions used by the theorems -/

/-- A section on which `_calculate_workload_balance` raises
`ZeroDivisionError`: truthy `meetings` and `credits`, and some meeting with
an empty day string. -/
def badSection (s : Section) : Bool :=
  match s.meetings, s.credits with
  | some ms, some c => c ≠ 0 && ms.any fun m => m.days.length = 0
  | _, _ => false

/-- The projection of a `ScheduleOption` that ignores the wall-clock
metadata: chosen sections, credits, quality score and conflict strings. -/
def optionKey (o : ScheduleOption) : List Section × ℚ × ℝ × List String :=
  (o.sections, o.total_credits, o.quality_score, o.conflicts)

/-- Over-write only the wall-clock stamp of an option's metadata. -/
def retime (t : Nat) (o : ScheduleOption) : ScheduleOption :=
  { o with metadata := { o.metadata with generation_time := t } }

/-- The occurrences collected under the `None` key of the
`professor_sections` grouping: one per id-less professor of each section,
in iteration order. -/
def noneGroupEntries (sections : List Section) : List Section :=
  sections.flatMap fun s =>
    match s.professors with
    | some ps => (ps.filter fun p => p.id = none).map fun _ => s
    | none => []

/-- The entry of key `k` in an ordered grouping map (`[]` when absent). -/
def findGroup (k : Option Int) :
    List (Option Int × List Section) → List Section
  | [] => []
  | (k', ss) :: rest => if k' = k then ss else findGroup k rest

/-- A section with a truthy professor list all of whose professors have no
`id`. -/
def allNoneProfs (s : Section) : Bool :=
  match s.professors with
  | some ps => !ps.isEmpty && ps.all fun p => p.id.isNone
  | none => false

/-! ### Concrete instances used by counterexamples and witnesses -/

/-- A minimal section with no meetings, professors, enrollment data or
credits. -/
def secBasic : Section := { id := "sec-1", course_id := "CS101" }

/-- One course, one plain section. -/
def availBasic : SectionMap := [("CS101", [secBasic])]

/-- A request for that one course with no constraints or preferences. -/
def reqPlain : ScheduleRequest :=
  { course_ids := ["CS101"], season_code := "202401" }

/-- The request of spec Scenario C: `min_credits = 18 > max_credits = 12`. -/
def reqBadCredits : ScheduleRequest :=
  { course_ids := ["CS101"], season_code := "202401",
    constraints := some { min_credits := some 18, max_credits := some 12 } }

/-- A section that is exactly full (`enrolled = capacity = 10`). -/
def secFull : Section :=
  { id := "full-1", course_id := "CS101",
    capacity := some 10, enrolled := some 10 }

/-- One course whose only section is full. -/
def availFull : SectionMap := [("CS101", [secFull])]

/-- A section with `capacity = 0` and `enrolled = 3`: over-enrolled, but
`capacity` is falsy. -/
def secZeroCap : Section :=
  { id := "zc-1", course_id := "CS101",
    capacity := some 0, enrolled := some 3 }

/-- A professor record with no id. -/
def profNoId : Professor := { name := "Prof X" }

/-- Two sections of different courses on disjoint days taught by the same
(id-less) professor record. -/
def secA : Section :=
  { id := "A1", course_id := "CS101",
    meetings := some [{ timeslots := [⟨540, 590⟩], days := "M" }],
    professors := some [profNoId] }

/-- See `secA`. -/
def secB : Section :=
  { id := "B1", course_id := "MATH201",
    meetings := some [{ timeslots := [⟨540, 590⟩], days := "T" }],
    professors := some [profNoId] }

/-- The two-course pool for the conflict-policy counterexample. -/
def availAB : SectionMap := [("CS101", [secA]), ("MATH201", [secB])]

/-- The same two-course request, with a (default) constraints object
present. -/
def reqWithConstraints : ScheduleRequest :=
  { course_ids := ["CS101", "MATH201"], season_code := "202401",
    constraints := some {} }

/-- A 3-credit section whose single meeting has an empty day string: the
workload-balance division by `len(meeting.days)` divides by zero. -/
def secEmptyDays : Section :=
  { id := "X1", course_id := "CS101", credits := some 3,
    meetings := some [{ timeslots := [], days := "" }] }

/-- One course whose only section triggers the division by zero. -/
def availEmptyDays : SectionMap := [("CS101", [secEmptyDays])]

/-- Two id-less professors who are clearly distinct people. -/
def profAlice : Professor := { name := "Alice Smith" }

/-- See `profAlice`. -/
def profBob : Professor := { name := "Bob Jones" }

/-- Sections of different courses taught by the two distinct id-less
professors. -/
def secP : Section :=
  { id := "P1", course_id := "CS101", professors := some [profAlice] }

/-- See `secP`. -/
def secQ : Section :=
  { id := "Q1", course_id := "MATH201", professors := some [profBob] }

/-- A professor who does carry a catalog id. -/
def profCarol : Professor := { id := some 7, name := "Carol Diaz" }

/-- A section taught by the id-carrying professor, used to build a mixed
combination. -/
def secR : Section :=
  { id := "R1", course_id := "PHYS101", professors := some [profCarol] }

/-- A request naming a course that the section map does not contain. -/
def reqMissing : ScheduleRequest :=
  { course_ids := ["MATH201"], season_code := "202401" }

/-! ## Theorems -/

/-- **C6.** `_timeslots_overlap` is symmetric, holds exactly when
`a.start < b.end` and `b.start < a.end` (half-open semantics), and in
particular is false when `a.end = b.start`: touching timeslots do not
conflict. -/
theorem C6_overlap_symmetric_halfopen (a b : Timeslot) :
    timeslotsOverlap a b = timeslotsOverlap b a ∧
    (timeslotsOverlap a b = true ↔
      a.start_time < b.end_time ∧ b.start_time < a.end_time) ∧
    (a.end_time = b.start_time → timeslotsOverlap a b = false) := by
  refine ⟨?_, ?_, ?_⟩
  · simp only [timeslotsOverlap]
    exact Bool.and_comm _ _
  · simp [timeslotsOverlap]
  · intro h
    simp [timeslotsOverlap, h]

/-- Witness for C6 at the concrete touching pair 10:00–11:00 and
11:00–12:00. -/
theorem C6_witness :
    timeslotsOverlap ⟨600, 660⟩ ⟨660, 720⟩ = false :=
  (C6_overlap_symmetric_halfopen ⟨600, 660⟩ ⟨660, 720⟩).2.2 rfl

/-- **C7 counterexample.** A section with `capacity = 0` and `enrolled = 3`
satisfies "both fields present and `enrolled ≥ capacity`" with
`include_full_sections = false`, yet the filter keeps it: Python truthiness
skips the fullness check when either field is `0`. -/
theorem C7_counterexample :
    secZeroCap.capacity = some 0 ∧ secZeroCap.enrolled = some 3 ∧
    sectionDropFull false secZeroCap = false ∧
    filterSections [("CS101", [secZeroCap])] none false =
      [("CS101", [secZeroCap])] := by
  refine ⟨rfl, rfl, rfl, ?_⟩
  simp [filterSections, keepSection, sectionDropFull, secZeroCap]

/-- **C7 (amended).** The availability rule of `_filter_sections` drops a
section exactly when `include_full_sections` is false, `capacity` and
`enrolled` are both present *and nonzero*, and `enrolled ≥ capacity`;
a section missing either field, or carrying a zero value in it, is never
dropped by this rule. -/
theorem C7_full_section_rule (incl : Bool) (s : Section) :
    sectionDropFull incl s = true ↔
      incl = false ∧ ∃ cap enr, s.capacity = some cap ∧
        s.enrolled = some enr ∧ cap ≠ 0 ∧ enr ≠ 0 ∧ enr ≥ cap := by
  cases incl <;> cases hc : s.capacity <;> cases he : s.enrolled <;>
    simp [sectionDropFull, hc, he] <;> aesop

/-- **C4.** Whenever `_calculate_quality_score` returns a score — for any
combination, conflict list and (possibly absent or invalid) preferences —
that score lies in `[0, 100]`: the final clamp absorbs both negative
intermediate penalties and bonus overshoot. -/
theorem C4_quality_score_bounds (sections : List Section)
    (conflicts : List ScheduleConflict)
    (preferences : Option SchedulePreferences) (s : ℝ)
    (h : calculateQualityScore sections conflicts preferences = .ok s) :
    0 ≤ s ∧ s ≤ 100 := by
  rcases hb : calculateWorkloadBalance sections with e | b
  · simp [calculateQualityScore, hb] at h
  · simp only [calculateQualityScore, hb, bind, Except.bind, pure,
      Except.pure, Except.ok.injEq] at h
    subst h
    constructor
    · exact le_max_left 0 _
    · exact max_le (by norm_num) (min_le_left _ _)

/-- Witness for C4: the empty combination with no conflicts and no
preferences scores exactly 100, which the theorem brackets in `[0, 100]`. -/
theorem C4_witness :
    calculateQualityScore [] [] none = .ok 100 ∧
    (0 : ℝ) ≤ 100 ∧ (100 : ℝ) ≤ 100 := by
  have h : calculateQualityScore [] [] none = .ok 100 := by
    simp only [calculateQualityScore, calculateWorkloadBalance,
      conflictPenalty, timeDistributionScore, List.isEmpty_nil, if_true,
      bind, Except.bind, pure, Except.pure, List.foldl_nil,
      Except.ok.injEq]
    norm_num
  exact ⟨h, (C4_quality_score_bounds [] [] none 100 h).1,
    (C4_quality_score_bounds [] [] none 100 h).2⟩

/-- **C1 (code bug).** On spec Scenario C (`min_credits = 18 >
max_credits = 12`, with sections available) validation does raise the
internal `INVALID_CREDIT_CONSTRAINTS` error before any filtering or
enumeration, but the catch-all `except Exception` of `generate_schedules`
re-wraps it, so the error the caller sees carries the code
`GENERATION_FAILED` — the route handler's mapping of
`INVALID_CREDIT_CONSTRAINTS` to HTTP 400 is unreachable. -/
theorem C1_invalid_credits_wrapped :
    validateRequest reqBadCredits availBasic =
      .error { message :=
                 "Minimum credits cannot be greater than maximum credits",
               error_code := some "INVALID_CREDIT_CONSTRAINTS" } ∧
    generate_schedules 0 0 reqBadCredits availBasic =
      .error { message := "Schedule generation failed: " ++
                 "Minimum credits cannot be greater than maximum credits",
               error_code := some "GENERATION_FAILED" } := by
  have hv : validateRequest reqBadCredits availBasic =
      .error { message :=
                 "Minimum credits cannot be greater than maximum credits",
               error_code := some "INVALID_CREDIT_CONSTRAINTS" } := by
    simp [validateRequest, missingCourses, reqBadCredits, availBasic,
      truthyQ]
    norm_num
  refine ⟨hv, ?_⟩
  simp [generate_schedules, generateBody, hv, bind, Except.bind]

/-- **C2 counterexample.** A course whose only section is full has zero
surviving sections after the filter, yet `generate_schedules` succeeds
(with an empty option list) instead of failing with
`NO_SECTIONS_AVAILABLE`: the availability check runs before filtering
only. -/
theorem C2_counterexample :
    filterSections availFull none false = [] ∧
    generate_schedules 0 0 reqPlain availFull =
      .ok { request_id := "schedule_0", season_code := "202401",
            options := [], total_options_generated := 0,
            processing_time_ms := 0,
            metadata := { courses_requested := ["CS101"],
                          valid_schedules_found := 0,
                          schedules_with_conflicts := 0,
                          average_quality := 0,
                          constraints_applied := false,
                          preferences_applied := false } } := by
  have hf : filterSections availFull none false = [] := by
    simp [filterSections, keepSection, sectionDropFull, availFull, secFull]
  refine ⟨hf, ?_⟩
  have hval : validateRequest reqPlain availFull = .ok () := by rfl
  have hcombos : allCombinations reqPlain availFull = [] := by
    rw [allCombinations]
    show generateSectionCombinations (filterSections availFull none false)
      = []
    rw [hf]
    rfl
  have hvalid : validCombos reqPlain availFull = [] := by
    rw [validCombos, hcombos]
    rfl
  have hscored : scoredSchedules 0 reqPlain availFull = .ok [] := by
    rw [scoredSchedules, hvalid]
    rfl
  simp only [generate_schedules, generateBody, hval, hscored, hcombos,
    hvalid, bind, Except.bind, pure, Except.pure, List.mergeSort_nil,
    List.take_nil, minQualityFilter]
  rfl

/-- **C2 (amended).** The `NO_SECTIONS_AVAILABLE` check applies to
`available_sections` *before* filtering: the missing-course list consists
exactly of the requested ids absent from the map or mapped to an empty
list, and when it is nonempty `generate_schedules` fails with an error
that names those ids in its message — though the surfaced error code is
`GENERATION_FAILED`, the catch-all re-wrap of the internal
`NO_SECTIONS_AVAILABLE` error.  (A course whose sections are all removed
by the filter does not fail this check; see the counterexample.) -/
theorem C2_prefilter_check (t0 t1 : Nat) (req : ScheduleRequest)
    (avail : SectionMap) :
    (∀ cid, cid ∈ missingCourses req avail ↔
       cid ∈ req.course_ids ∧
         (avail.lookup cid = none ∨ avail.lookup cid = some [])) ∧
    (missingCourses req avail ≠ [] →
      generate_schedules t0 t1 req avail =
        .error { message := "Schedule generation failed: " ++
                   ("No available sections for courses: " ++
                     pyReprStrList (missingCourses req avail)),
                 error_code := some "GENERATION_FAILED" }) := by
  constructor
  · intro cid
    simp only [missingCourses, List.mem_filter, and_congr_right_iff]
    intro _
    cases h : avail.lookup cid with
    | none => simp [h]
    | some ss => cases ss <;> simp [h]
  · intro h
    have hv : validateRequest req avail =
        .error { message := "No available sections for courses: " ++
                   pyReprStrList (missingCourses req avail),
                 error_code := some "NO_SECTIONS_AVAILABLE" } := by
      rw [validateRequest, if_pos h]
    simp [generate_schedules, generateBody, hv, bind, Except.bind]

/-- Witness for C2 (amended): requesting the absent course MATH201 against
a map holding only CS101 fails with the wrapped error naming MATH201. -/
theorem C2_witness :
    ("MATH201" ∈ missingCourses reqMissing availBasic ↔
       "MATH201" ∈ reqMissing.course_ids ∧
         (availBasic.lookup "MATH201" = none ∨
           availBasic.lookup "MATH201" = some [])) ∧
    generate_schedules 0 0 reqMissing availBasic =
      .error { message := "Schedule generation failed: " ++
                 ("No available sections for courses: " ++
                   pyReprStrList (missingCourses reqMissing availBasic)),
               error_code := some "GENERATION_FAILED" } :=
  ⟨(C2_prefilter_check 0 0 reqMissing availBasic).1 "MATH201",
   (C2_prefilter_check 0 0 reqMissing availBasic).2 (by decide)⟩

/-- **C3 counterexample.** A combination whose only conflict is a
`same_professor` *warning* is dropped from the valid pool when a
constraints object is present: the survival test is `not conflicts or
constraints is None`, which pays no attention to severity. -/
theorem C3_counterexample :
    detectConflicts [secA, secB] =
      [{ section1_id := "A1", section2_id := "B1",
         conflict_type := "same_professor",
         details := "Multiple sections with same professor (ID: None)",
         severity := "warning" }] ∧
    allCombinations reqWithConstraints availAB = [[secA, secB]] ∧
    validCombos reqWithConstraints availAB = [] := by
  refine ⟨by decide, by decide, by decide⟩

/-- **C3 (amended).** A combination is kept in the scored pool exactly
when its conflict list is empty or no constraints object was supplied;
in particular a warnings-only combination is kept iff constraints are
absent, and a conflict-free combination is always kept. -/
theorem C3_conflict_keep_policy (req : ScheduleRequest) (avail : SectionMap)
    (combo : List Section) (cs : List ScheduleConflict) :
    (combo, cs) ∈ validCombos req avail ↔
      combo ∈ allCombinations req avail ∧ cs = detectConflicts combo ∧
        (cs = [] ∨ req.constraints = none) := by
  simp only [validCombos, List.mem_filterMap]
  constructor
  · rintro ⟨a, ha, hf⟩
    split at hf
    next h =>
      rw [Option.some.injEq, Prod.mk.injEq] at hf
      obtain ⟨rfl, rfl⟩ := hf
      refine ⟨ha, rfl, ?_⟩
      simpa [List.isEmpty_iff, Option.isNone_iff_eq_none] using h
    next => exact absurd hf (by simp)
  · rintro ⟨hm, rfl, hor⟩
    refine ⟨combo, hm, ?_⟩
    have hc : ((detectConflicts combo).isEmpty || req.constraints.isNone)
        = true := by
      simpa [List.isEmpty_iff, Option.isNone_iff_eq_none] using hor
    simp [hc]

/-- `badSection` captures exactly the sections on which the
`daily_credits` loop divides by zero. -/
theorem badSection_iff (s : Section) :
    badSection s = true ↔
      ∃ ms c, s.meetings = some ms ∧ s.credits = some c ∧ c ≠ 0 ∧
        ∃ m ∈ ms, m.days.length = 0 := by
  cases hm : s.meetings <;> cases hc : s.credits <;>
    simp [badSection, hm, hc]

/-- The per-section meeting loop fails with the division-by-zero error as
soon as some meeting has an empty day string. -/
theorem meetingFold_error {c : ℚ} {ms : List Meeting}
    (dc : List (Char × ℚ)) (h : ∃ m ∈ ms, m.days.length = 0) :
    ms.foldlM (meetingDailyStep c) dc =
      .error { message := "float division by zero", error_code := none } := by
  induction ms generalizing dc with
  | nil => simp at h
  | cons m ms ih =>
    rw [List.foldlM_cons]
    by_cases h0 : m.days.length = 0
    · rw [meetingDailyStep, if_pos h0]
      rfl
    · rw [meetingDailyStep, if_neg h0]
      show ms.foldlM (meetingDailyStep c) _ = _
      apply ih
      rcases h with ⟨m', hm', h'⟩
      rcases List.mem_cons.mp hm' with rfl | hmem
      · exact absurd h' h0
      · exact ⟨m', hmem, h'⟩

/-- The per-section meeting loop succeeds when every meeting has a
nonempty day string. -/
theorem meetingFold_ok {c : ℚ} {ms : List Meeting}
    (dc : List (Char × ℚ)) (h : ∀ m ∈ ms, m.days.length ≠ 0) :
    ∃ dc', ms.foldlM (meetingDailyStep c) dc = .ok dc' := by
  induction ms generalizing dc with
  | nil => exact ⟨dc, rfl⟩
  | cons m ms ih =>
    rw [List.foldlM_cons, meetingDailyStep,
      if_neg (h m (List.mem_cons_self m ms))]
    exact ih _ fun m' hm' => h m' (List.mem_cons_of_mem _ hm')

/-- A bad section makes its `daily_credits` contribution fail. -/
theorem sectionDailyCredits_error_of_bad (dc : List (Char × ℚ))
    (s : Section) (h : badSection s = true) :
    sectionDailyCredits dc s =
      .error { message := "float division by zero", error_code := none } := by
  obtain ⟨ms, c, hm, hc, hc0, m, hmm, h0⟩ := (badSection_iff s).mp h
  simp only [sectionDailyCredits, hm, hc]
  rw [if_neg]
  · exact meetingFold_error dc ⟨m, hmm, h0⟩
  · simp [List.isEmpty_iff, List.ne_nil_of_mem hmm, hc0]

/-- A non-bad section's `daily_credits` contribution succeeds. -/
theorem sectionDailyCredits_ok_of_not_bad (dc : List (Char × ℚ))
    (s : Section) (h : badSection s = false) :
    ∃ dc', sectionDailyCredits dc s = .ok dc' := by
  cases hm : s.meetings with
  | none => exact ⟨dc, by simp [sectionDailyCredits, hm]⟩
  | some ms =>
    cases hc : s.credits with
    | none => exact ⟨dc, by simp [sectionDailyCredits, hm, hc]⟩
    | some c =>
      simp only [sectionDailyCredits, hm, hc]
      by_cases hif : (ms.isEmpty || decide (c = 0)) = true
      · exact ⟨dc, by rw [if_pos hif]⟩
      · rw [if_neg hif]
        apply meetingFold_ok
        intro m hmem h0
        have : badSection s = true :=
          (badSection_iff s).mpr ⟨ms, c, hm, hc, by
            intro hceq
            simp [hceq] at hif, m, hmem, h0⟩
        rw [this] at h
        cases h

/-- The fold building `daily_credits` fails iff propagated: with a bad
section somewhere in the list it returns the division-by-zero error. -/
theorem sectionsFold_error (sections : List Section) (dc : List (Char × ℚ))
    (h : ∃ s ∈ sections, badSection s = true) :
    sections.foldlM sectionDailyCredits dc =
      .error { message := "float division by zero", error_code := none } := by
  induction sections generalizing dc with
  | nil => simp at h
  | cons s ss ih =>
    rw [List.foldlM_cons]
    by_cases hb : badSection s = true
    · rw [sectionDailyCredits_error_of_bad dc s hb]
      rfl
    · obtain ⟨dc', hok⟩ :=
        sectionDailyCredits_ok_of_not_bad dc s (by simpa using hb)
      rw [hok]
      show ss.foldlM sectionDailyCredits dc' = _
      apply ih
      rcases h with ⟨s', hs', hbs'⟩
      rcases List.mem_cons.mp hs' with rfl | hmem
      · exact absurd hbs' hb
      · exact ⟨s', hmem, hbs'⟩

/-- With no bad section the `daily_credits` fold succeeds. -/
theorem sectionsFold_ok (sections : List Section) (dc : List (Char × ℚ))
    (h : ∀ s ∈ sections, badSection s = false) :
    ∃ dc', sections.foldlM sectionDailyCredits dc = .ok dc' := by
  induction sections generalizing dc with
  | nil => exact ⟨dc, rfl⟩
  | cons s ss ih =>
    obtain ⟨dc', hok⟩ :=
      sectionDailyCredits_ok_of_not_bad dc s (h s (List.mem_cons_self s ss))
    rw [List.foldlM_cons, hok]
    exact ih _ fun s' hs' => h s' (List.mem_cons_of_mem _ hs')

/-- `_calculate_workload_balance` raises the division-by-zero error when
some section is bad. -/
theorem calculateWorkloadBalance_error (sections : List Section)
    (h : ∃ s ∈ sections, badSection s = true) :
    calculateWorkloadBalance sections =
      .error { message := "float division by zero", error_code := none } := by
  have hne : sections ≠ [] := by
    rcases h with ⟨s, hs, _⟩
    exact List.ne_nil_of_mem hs
  rw [calculateWorkloadBalance, if_neg (by simp [List.isEmpty_iff, hne])]
  have hd : dailyCredits sections =
      .error { message := "float division by zero", error_code := none } :=
    sectionsFold_error sections [] h
  rw [show (do
        let dc ← dailyCredits sections
        if dc.isEmpty then pure 0
        else
          pure (max 0
            (10 - Real.sqrt ((populationVariance (dc.map (·.2)) : ℚ) : ℝ)))
      : Except ScheduleGeneratorError ℝ) =
      Except.bind (dailyCredits sections) _ from rfl, hd]
  rfl

/-- With no bad section `_calculate_workload_balance` is total and its
bonus lies in `[0, 10]`. -/
theorem calculateWorkloadBalance_ok_bounds (sections : List Section)
    (h : ∀ s ∈ sections, badSection s = false) :
    ∃ b, calculateWorkloadBalance sections = .ok b ∧ 0 ≤ b ∧ b ≤ 10 := by
  by_cases he : sections.isEmpty = true
  · exact ⟨0, by rw [calculateWorkloadBalance, if_pos he], le_refl 0,
      by norm_num⟩
  · obtain ⟨dc, hdc⟩ := sectionsFold_ok sections [] h
    have hdc' : dailyCredits sections = .ok dc := hdc
    rw [calculateWorkloadBalance, if_neg he]
    rw [show (do
          let dc ← dailyCredits sections
          if dc.isEmpty then pure 0
          else
            pure (max 0
              (10 - Real.sqrt ((populationVariance (dc.map (·.2)) : ℚ) : ℝ)))
        : Except ScheduleGeneratorError ℝ) =
        Except.bind (dailyCredits sections)
          (fun dc =>
            if dc.isEmpty then pure 0
            else
              pure (max 0
                (10 - Real.sqrt ((populationVariance (dc.map (·.2)) : ℚ) : ℝ))))
        from rfl, hdc']
    by_cases hdce : dc.isEmpty = true
    · exact ⟨0, by
        show (if dc.isEmpty then pure 0 else _) = _
        rw [if_pos hdce]
        rfl, le_refl 0, by norm_num⟩
    · refine ⟨max 0 (10 - Real.sqrt ((populationVariance (dc.map (·.2)) : ℚ) : ℝ)),
        ?_, le_max_left 0 _,
        max_le (by norm_num) (sub_le_self 10 (Real.sqrt_nonneg _))⟩
      show (if dc.isEmpty then pure 0 else _) = _
      rw [if_neg hdce]
      rfl

/-- The division-by-zero error propagates through
`_calculate_quality_score`. -/
theorem calculateQualityScore_error (sections : List Section)
    (conflicts : List ScheduleConflict)
    (preferences : Option SchedulePreferences)
    (h : ∃ s ∈ sections, badSection s = true) :
    calculateQualityScore sections conflicts preferences =
      .error { message := "float division by zero", error_code := none } := by
  simp only [calculateQualityScore, calculateWorkloadBalance_error sections h,
    bind, Except.bind]

/-- The division-by-zero error propagates through the scoring of one
combination. -/
theorem scoreCombo_error (t1 : Nat) (preferences : Option SchedulePreferences)
    (pc : List Section × List ScheduleConflict)
    (h : ∃ s ∈ pc.1, badSection s = true) :
    scoreCombo t1 preferences pc =
      .error { message := "float division by zero", error_code := none } := by
  simp only [scoreCombo,
    calculateQualityScore_error pc.1 pc.2 preferences h, bind, Except.bind]

/-- If evaluating `f` fails on some member of the list, `List.mapM f`
fails. -/
theorem mapM_error_of_mem {α β : Type}
    (f : α → Except ScheduleGeneratorError β) (l : List α) (x : α)
    (hx : x ∈ l) (e : ScheduleGeneratorError) (hf : f x = .error e) :
    ∃ e', l.mapM f = .error e' := by
  induction l with
  | nil => simp at hx
  | cons y ys ih =>
    rw [List.mapM_cons]
    cases hy : f y with
    | error e'' => exact ⟨e'', rfl⟩
    | ok b =>
      rcases List.mem_cons.mp hx with rfl | hmem
      · rw [hy] at hf
        cases hf
      · obtain ⟨e', he'⟩ := ih hmem
        refine ⟨e', ?_⟩
        rw [he']
        rfl

/-- **C9.** If any scored combination contains a section with truthy
(nonzero) credits and a meeting whose day string is empty, the
workload-balance computation divides by zero and `generate_schedules`
surfaces an error of kind `GENERATION_FAILED` instead of a result; on
every other input the workload-balance bonus is total and lies in
`[0, 10]`. -/
theorem C9_empty_days_behavior :
    (∀ t0 t1 req avail,
        (∃ pc ∈ validCombos req avail, ∃ s ∈ pc.1, badSection s = true) →
        ∃ msg, generate_schedules t0 t1 req avail =
          .error { message := msg, error_code := some "GENERATION_FAILED" }) ∧
    (∀ sections : List Section,
        (∀ s ∈ sections, badSection s = false) →
        ∃ b, calculateWorkloadBalance sections = .ok b ∧ 0 ≤ b ∧ b ≤ 10) := by
  constructor
  · rintro t0 t1 req avail ⟨pc, hpc, hbad⟩
    have hbody : ∃ e, generateBody t0 t1 req avail = .error e := by
      cases hv : validateRequest req avail with
      | error e => exact ⟨e, by simp only [generateBody, hv, bind, Except.bind]⟩
      | ok u =>
        cases u
        have hsc : scoreCombo t1 req.preferences pc =
            .error { message := "float division by zero",
                     error_code := none } :=
          scoreCombo_error t1 req.preferences pc hbad
        obtain ⟨e, he⟩ :=
          mapM_error_of_mem (scoreCombo t1 req.preferences)
            (validCombos req avail) pc hpc _ hsc
        have hss : scoredSchedules t1 req avail = .error e := he
        exact ⟨e, by simp only [generateBody, hv, hss, bind, Except.bind]⟩
    obtain ⟨e, he⟩ := hbody
    exact ⟨"Schedule generation failed: " ++ e.message,
      by simp only [generate_schedules, he]⟩
  · exact calculateWorkloadBalance_ok_bounds

/-- Witness for C9: the concrete empty-day-string section makes generation
fail with `GENERATION_FAILED`, and a section list with no bad section gets
a total in-bounds bonus. -/
theorem C9_witness :
    (∃ msg, generate_schedules 0 0 reqPlain availEmptyDays =
       .error { message := msg, error_code := some "GENERATION_FAILED" }) ∧
    (∃ b, calculateWorkloadBalance [secBasic] = .ok b ∧ 0 ≤ b ∧ b ≤ 10) :=
  ⟨C9_empty_days_behavior.1 0 0 reqPlain availEmptyDays
     ⟨([secEmptyDays], []), by decide, secEmptyDays, by decide, by decide⟩,
   C9_empty_days_behavior.2 [secBasic] (by decide)⟩

/-- Looking up key `k` after one upsert: an upsert under `k` appends to
the `k` entry (creating it at the end on first use); an upsert under any
other key leaves the `k` entry unchanged. -/
theorem findGroup_addToGroups (gs : List (Option Int × List Section))
    (k k0 : Option Int) (s : Section) :
    findGroup k (addToGroups gs k0 s) =
      if k0 = k then findGroup k gs ++ [s] else findGroup k gs := by
  induction gs with
  | nil =>
    by_cases h : k0 = k <;> simp [addToGroups, findGroup, h]
  | cons hd rest ih =>
    obtain ⟨k', ss⟩ := hd
    simp only [addToGroups]
    by_cases h1 : k' = k0
    · rw [if_pos h1]
      by_cases h2 : k' = k
      · have h3 : k0 = k := h1.symm.trans h2
        simp [findGroup, h2, h3]
      · have h3 : ¬k0 = k := fun h => h2 (h1.trans h)
        simp [findGroup, h2, h3]
    · rw [if_neg h1]
      by_cases h2 : k' = k
      · have h3 : ¬k0 = k := fun h => h1 (h2.trans h.symm)
        simp [findGroup, h2, h3]
      · simp only [findGroup, if_neg h2]
        exact ih

/-- The inner professor loop of the grouping appends, to the `none` entry,
one occurrence of the section per id-less professor (in order), whatever
the other professors' ids are. -/
theorem findGroup_profFold (s : Section) (ps : List Professor) :
    ∀ gs : List (Option Int × List Section),
      findGroup none (ps.foldl (fun gs p => addToGroups gs p.id s) gs) =
        findGroup none gs ++
          ((ps.filter fun p => p.id = none).map fun _ => s) := by
  induction ps with
  | nil => intro gs; simp
  | cons p ps ih =>
    intro gs
    simp only [List.foldl_cons]
    rw [ih, findGroup_addToGroups]
    by_cases h : p.id = none
    · simp [h, List.filter_cons]
    · simp [h, List.filter_cons]

/-- The full grouping fold of `_detect_professor_conflicts` accumulates
exactly `noneGroupEntries` under the `none` key, for an arbitrary mix of
id-carrying and id-less professors. -/
theorem findGroup_professorGroups_fold (sections : List Section) :
    ∀ gs : List (Option Int × List Section),
      findGroup none (sections.foldl
          (fun gs s =>
            match s.professors with
            | some ps => ps.foldl (fun gs p => addToGroups gs p.id s) gs
            | none => gs)
          gs) =
        findGroup none gs ++ noneGroupEntries sections := by
  induction sections with
  | nil => intro gs; simp [noneGroupEntries]
  | cons s rest ih =>
    intro gs
    have hsplit : noneGroupEntries (s :: rest) =
        (match s.professors with
         | some ps => (ps.filter fun p => p.id = none).map fun _ => s
         | none => []) ++ noneGroupEntries rest := by
      simp [noneGroupEntries]
    simp only [List.foldl_cons]
    rw [ih, hsplit]
    cases hp : s.professors with
    | none => simp
    | some ps => rw [findGroup_profFold]; simp

/-- A nonempty entry of the grouping map is an element of it. -/
theorem findGroup_mem (gs : List (Option Int × List Section))
    (k : Option Int) (h : findGroup k gs ≠ []) : (k, findGroup k gs) ∈ gs := by
  induction gs with
  | nil => exact absurd rfl h
  | cons hd rest ih =>
    obtain ⟨k', ss⟩ := hd
    by_cases h2 : k' = k
    · subst h2
      simp [findGroup]
    · simp only [findGroup, if_neg h2] at h ⊢
      exact List.mem_cons_of_mem _ (ih h)

/-- The `none` entry of `professorGroups` is exactly `noneGroupEntries`. -/
theorem noneGroup_eq (sections : List Section) :
    findGroup none (professorGroups sections) = noneGroupEntries sections := by
  rw [professorGroups, findGroup_professorGroups_fold]
  rfl

/-- Every combination has at least as many occurrences in the `none` group
as it has sections whose professors are all id-less. -/
theorem noneGroupEntries_length (sections : List Section) :
    (sections.filter allNoneProfs).length ≤
      (noneGroupEntries sections).length := by
  induction sections with
  | nil => simp [noneGroupEntries]
  | cons s rest ih =>
    have hsplit : noneGroupEntries (s :: rest) =
        (match s.professors with
         | some ps => (ps.filter fun p => p.id = none).map fun _ => s
         | none => []) ++ noneGroupEntries rest := by
      simp [noneGroupEntries]
    rw [hsplit, List.filter_cons]
    by_cases hs : allNoneProfs s = true
    · rw [if_pos hs]
      simp only [List.length_cons, List.length_append]
      have h1 : 1 ≤ ((match s.professors with
          | some ps => (ps.filter fun p => p.id = none).map fun _ => s
          | none => []) : List Section).length := by
        cases hp : s.professors with
        | none => simp [allNoneProfs, hp] at hs
        | some ps =>
          cases ps with
          | nil => simp [allNoneProfs, hp] at hs
          | cons p0 ps2 =>
            simp only [allNoneProfs, hp, Bool.and_eq_true,
              List.all_eq_true] at hs
            have hp0 : p0.id = none :=
              Option.isNone_iff_eq_none.mp
                (hs.2 p0 (List.mem_cons_self _ _))
            simp [List.filter_cons, hp0]
      omega
    · rw [if_neg hs]
      simp only [List.length_append]
      omega

/-- Every all-id-less section of the combination lands in the `none`
group. -/
theorem mem_noneGroupEntries (sections : List Section) (s : Section)
    (hs : s ∈ sections) (h : allNoneProfs s = true) :
    s ∈ noneGroupEntries sections := by
  cases hp : s.professors with
  | none => simp [allNoneProfs, hp] at h
  | some ps =>
    cases ps with
    | nil => simp [allNoneProfs, hp] at h
    | cons p0 ps2 =>
      simp only [allNoneProfs, hp, Bool.and_eq_true,
        List.all_eq_true] at h
      have hp0 : p0.id = none :=
        Option.isNone_iff_eq_none.mp (h.2 p0 (List.mem_cons_self _ _))
      unfold noneGroupEntries
      apply List.mem_flatMap.mpr
      refine ⟨s, hs, ?_⟩
      rw [hp]
      show s ∈ ((p0 :: ps2).filter fun p => p.id = none).map fun _ => s
      apply List.mem_map.mpr
      refine ⟨p0, List.mem_filter.mpr ⟨List.mem_cons_self _ _, by simp [hp0]⟩, rfl⟩

/-- **C10.** In every combination containing two or more sections whose
professors all lack an id — the other sections may carry arbitrary,
id-bearing professors — each such section is grouped (once per professor)
under the single key `None`, and among the emitted conflicts there is a
`same_professor` warning for that group naming only its first two entries,
regardless of the group's size and even though the id-less professors may
be distinct people. -/
theorem C10_none_id_professor_grouping (sections : List Section)
    (h2 : 2 ≤ (sections.filter allNoneProfs).length) :
    ∃ g1 g2 rest, noneGroupEntries sections = g1 :: g2 :: rest ∧
      (∀ s ∈ sections, allNoneProfs s = true →
        s ∈ noneGroupEntries sections) ∧
      (none, noneGroupEntries sections) ∈ professorGroups sections ∧
      { section1_id := g1.id, section2_id := g2.id,
        conflict_type := "same_professor",
        details := "Multiple sections with same professor (ID: None)",
        severity := "warning" } ∈ detectProfessorConflicts sections := by
  have hlen : 2 ≤ (noneGroupEntries sections).length :=
    le_trans h2 (noneGroupEntries_length sections)
  obtain ⟨g1, g2, rest, hshape⟩ :
      ∃ g1 g2 rest, noneGroupEntries sections = g1 :: g2 :: rest := by
    rcases hfl : noneGroupEntries sections with _ | ⟨g1, _ | ⟨g2, rest⟩⟩
    · rw [hfl] at hlen; simp at hlen
    · rw [hfl] at hlen; simp at hlen
    · exact ⟨g1, g2, rest, rfl⟩
  have hne : findGroup none (professorGroups sections) ≠ [] := by
    rw [noneGroup_eq, hshape]
    simp
  have hmem := findGroup_mem (professorGroups sections) none hne
  rw [noneGroup_eq] at hmem
  have hmem2 := hmem
  rw [hshape] at hmem2
  refine ⟨g1, g2, rest, hshape,
    fun s hs hall => mem_noneGroupEntries sections s hs hall, hmem, ?_⟩
  unfold detectProfessorConflicts
  apply List.mem_filterMap.mpr
  refine ⟨(none, g1 :: g2 :: rest), hmem2, ?_⟩
  simp [pyReprOptInt]

/-- Witness for C10: a mixed combination — two sections taught by distinct
id-less professors plus one section taught by an id-carrying professor —
still yields the `same_professor` warning for the `None` group. -/
theorem C10_witness :
    profAlice.name ≠ profBob.name ∧ profCarol.id = some 7 ∧
    2 ≤ ([secP, secR, secQ].filter allNoneProfs).length ∧
    (∃ g1 g2 rest,
      noneGroupEntries [secP, secR, secQ] = g1 :: g2 :: rest ∧
      (∀ s ∈ [secP, secR, secQ], allNoneProfs s = true →
        s ∈ noneGroupEntries [secP, secR, secQ]) ∧
      (none, noneGroupEntries [secP, secR, secQ]) ∈
        professorGroups [secP, secR, secQ] ∧
      { section1_id := g1.id, section2_id := g2.id,
        conflict_type := "same_professor",
        details := "Multiple sections with same professor (ID: None)",
        severity := "warning" } ∈
        detectProfessorConflicts [secP, secR, secQ]) :=
  ⟨by decide, by decide, by decide,
   C10_none_id_professor_grouping [secP, secR, secQ] (by decide)⟩

/-- The descending-score comparison is transitive. -/
theorem scoreDescLE_trans : ∀ a b c : ScheduleOption,
    scoreDescLE a b → scoreDescLE b c → scoreDescLE a c := by
  intro a b c hab hbc
  simp only [scoreDescLE, decide_eq_true_eq] at *
  exact le_trans hbc hab

/-- The descending-score comparison is total. -/
theorem scoreDescLE_total : ∀ a b : ScheduleOption,
    scoreDescLE a b || scoreDescLE b a := by
  intro a b
  simp only [scoreDescLE, Bool.or_eq_true, decide_eq_true_eq]
  exact le_total _ _

/-- The minimum-quality filter only removes elements. -/
theorem minQualityFilter_sublist (c : Option ScheduleConstraints)
    (l : List ScheduleOption) : List.Sublist (minQualityFilter c l) l := by
  cases c with
  | none => exact List.Sublist.refl l
  | some cc =>
    cases hm : cc.min_quality_score with
    | none => simp only [minQualityFilter, hm]; exact List.Sublist.refl l
    | some m => simp only [minQualityFilter, hm]; exact List.filter_sublist l

/-- Unpacking a successful `generate_schedules` run: validation passed,
scoring succeeded, and the returned options are exactly the stable
descending sort of the scored pool, truncated to `max_options` and then
passed through the minimum-quality filter. -/
theorem generate_ok_structure (t0 t1 : Nat) (req : ScheduleRequest)
    (avail : SectionMap) (g : GeneratedSchedule)
    (h : generate_schedules t0 t1 req avail = .ok g) :
    ∃ scored, scoredSchedules t1 req avail = .ok scored ∧
      g.options = minQualityFilter req.constraints
        ((scored.mergeSort scoreDescLE).take req.max_options) := by
  cases hb : generateBody t0 t1 req avail with
  | error e =>
    simp only [generate_schedules, hb] at h
    cases h
  | ok r =>
    simp only [generate_schedules, hb] at h
    injection h with h
    subst h
    cases hv : validateRequest req avail with
    | error e =>
      simp only [generateBody, hv, bind, Except.bind] at hb
      cases hb
    | ok u =>
      cases u
      cases hs : scoredSchedules t1 req avail with
      | error e =>
        simp only [generateBody, hv, hs, bind, Except.bind] at hb
        cases hb
      | ok scored =>
        simp only [generateBody, hv, hs, bind, Except.bind, pure,
          Except.pure] at hb
        injection hb with hb
        exact ⟨scored, rfl, by rw [← hb]⟩

/-- **C5.** On every successful generation the returned options are in
descending quality-score order, number at most `max_options`, and arise as
the stable merge sort of the scored pool truncated to `max_options` with
the minimum-quality threshold applied *after* the truncation; stability
means every subsequence of the pool already in descending order — ties in
generation order included — survives into the sorted list as a
subsequence. -/
theorem C5_options_sorted_truncated (t0 t1 : Nat) (req : ScheduleRequest)
    (avail : SectionMap) (g : GeneratedSchedule)
    (h : generate_schedules t0 t1 req avail = .ok g) :
    List.Pairwise (fun a b => b.quality_score ≤ a.quality_score) g.options ∧
    g.options.length ≤ req.max_options ∧
    ∃ scored, scoredSchedules t1 req avail = .ok scored ∧
      g.options = minQualityFilter req.constraints
        ((scored.mergeSort scoreDescLE).take req.max_options) ∧
      ∀ sub : List ScheduleOption,
        sub.Pairwise (fun a b => scoreDescLE a b = true) →
        List.Sublist sub scored →
        List.Sublist sub (scored.mergeSort scoreDescLE) := by
  obtain ⟨scored, hs, hopt⟩ := generate_ok_structure t0 t1 req avail g h
  refine ⟨?_, ?_, scored, hs, hopt, ?_⟩
  · have hsorted : (scored.mergeSort scoreDescLE).Pairwise
        (fun a b => scoreDescLE a b = true) :=
      List.sorted_mergeSort scoreDescLE_trans scoreDescLE_total scored
    have htake := hsorted.sublist (List.take_sublist req.max_options _)
    have hfin := htake.sublist (minQualityFilter_sublist req.constraints _)
    rw [hopt]
    exact hfin.imp fun hab => by
      simpa [scoreDescLE, decide_eq_true_eq] using hab
  · rw [hopt]
    exact le_trans
      (minQualityFilter_sublist req.constraints _).length_le
      (List.length_take_le _ _)
  · intro sub hp hsub
    exact List.sublist_mergeSort scoreDescLE_trans scoreDescLE_total hp hsub

/-- Full evaluation of one successful run: the single plain section yields
one option with score 100. -/
theorem generate_basic_eq (t0 t1 : Nat) :
    generate_schedules t0 t1 reqPlain availBasic =
      .ok { request_id := "schedule_" ++ toString t0,
            season_code := "202401",
            options := [{ sections := [secBasic], total_credits := 0,
                          quality_score := 100, conflicts := [],
                          metadata := { generation_time := t1,
                                        course_count := 1,
                                        has_conflicts := false } }],
            total_options_generated := 1,
            processing_time_ms := t1 - t0,
            metadata := { courses_requested := ["CS101"],
                          valid_schedules_found := 1,
                          schedules_with_conflicts := 0,
                          average_quality := 100,
                          constraints_applied := false,
                          preferences_applied := false } } := by
  have hval : validateRequest reqPlain availBasic = .ok () := rfl
  have hvalid : validCombos reqPlain availBasic = [([secBasic], [])] := by
    decide
  have hcombos : allCombinations reqPlain availBasic = [[secBasic]] := by
    decide
  have hwb : calculateWorkloadBalance [secBasic] = .ok 0 := by
    rw [calculateWorkloadBalance, if_neg (by decide)]
    rw [show dailyCredits [secBasic] = .ok [] from rfl]
    rfl
  have ht : timeDistributionScore [secBasic] = 0 := by
    rw [timeDistributionScore, if_neg (by decide),
      show timeBlocksUsed [secBasic] = [] from rfl]
    norm_num
  have hq : calculateQualityScore [secBasic] [] none = .ok 100 := by
    simp only [calculateQualityScore, hwb, bind, Except.bind, pure,
      Except.pure, conflictPenalty, List.foldl_nil, ht, Except.ok.injEq]
    norm_num
  have hopt : mkScheduleOption t1 [secBasic] [] 100 =
      { sections := [secBasic], total_credits := 0, quality_score := 100,
        conflicts := [],
        metadata := { generation_time := t1, course_count := 1,
                      has_conflicts := false } } := by
    simp [mkScheduleOption, totalCredits, secBasic]
  have hsc : scoredSchedules t1 reqPlain availBasic =
      .ok [mkScheduleOption t1 [secBasic] [] 100] := by
    simp only [scoredSchedules, hvalid, List.mapM_cons, List.mapM_nil,
      scoreCombo, show reqPlain.preferences = none from rfl, hq, bind,
      Except.bind, pure, Except.pure]
  simp only [generate_schedules, generateBody, hval, hsc, hcombos, hvalid,
    bind, Except.bind, pure, Except.pure, hopt, List.mergeSort_singleton]
  simp [minQualityFilter, reqPlain, availBasic]

/-- Witness for C5: a concrete successful run whose options come out
sorted and within the option cap. -/
theorem C5_witness :
    ∃ g, generate_schedules 0 3 reqPlain availBasic = .ok g ∧
      List.Pairwise (fun a b => b.quality_score ≤ a.quality_score)
        g.options ∧
      g.options.length ≤ reqPlain.max_options :=
  ⟨_, generate_basic_eq 0 3,
   (C5_options_sorted_truncated 0 3 reqPlain availBasic _
     (generate_basic_eq 0 3)).1,
   (C5_options_sorted_truncated 0 3 reqPlain availBasic _
     (generate_basic_eq 0 3)).2.1⟩

/-- Scoring one combination at two different wall-clock values differs only
by re-stamping the option metadata. -/
theorem scoreCombo_retime (t1 u1 : Nat)
    (preferences : Option SchedulePreferences)
    (pc : List Section × List ScheduleConflict) :
    scoreCombo t1 preferences pc =
      (scoreCombo u1 preferences pc).map (retime t1) := by
  cases hq : calculateQualityScore pc.1 pc.2 preferences with
  | error e => simp only [scoreCombo, hq, bind, Except.bind]; rfl
  | ok q =>
    simp only [scoreCombo, hq, bind, Except.bind, pure, Except.pure]
    rfl

/-- The whole scoring pass at two wall-clock values differs only by
re-stamping every option. -/
theorem mapM_scoreCombo_retime (t1 u1 : Nat)
    (preferences : Option SchedulePreferences) :
    ∀ l : List (List Section × List ScheduleConflict),
      l.mapM (scoreCombo t1 preferences) =
        (l.mapM (scoreCombo u1 preferences)).map (List.map (retime t1))
  | [] => rfl
  | x :: xs => by
    rw [List.mapM_cons, List.mapM_cons, scoreCombo_retime t1 u1 preferences x]
    cases hx : scoreCombo u1 preferences x with
    | error e => rfl
    | ok y =>
      rw [mapM_scoreCombo_retime t1 u1 preferences xs]
      cases hxs : xs.mapM (scoreCombo u1 preferences) with
      | error e => rfl
      | ok ys => rfl

/-- The minimum-quality filter commutes with re-stamping (it only reads
scores). -/
theorem minQualityFilter_map_retime (c : Option ScheduleConstraints)
    (t : Nat) (l : List ScheduleOption) :
    minQualityFilter c (l.map (retime t)) =
      (minQualityFilter c l).map (retime t) := by
  cases c with
  | none => rfl
  | some cc =>
    cases hm : cc.min_quality_score with
    | none => simp only [minQualityFilter, hm]
    | some m =>
      simp only [minQualityFilter, hm]
      rw [List.filter_map]
      rfl

/-- **C8.** For a fixed request and section pool, two runs of the
exact-enumeration path — differing only in their wall-clock readings, the
sole nondeterministic input of the embedding — return options with
identical section lists, credits, quality scores and conflict strings, in
identical order; only the time-stamped metadata may differ. -/
theorem C8_exact_enumeration_deterministic (t0 t1 u0 u1 : Nat)
    (req : ScheduleRequest) (avail : SectionMap)
    (g g' : GeneratedSchedule)
    (h : generate_schedules t0 t1 req avail = .ok g)
    (h' : generate_schedules u0 u1 req avail = .ok g') :
    g.options.map optionKey = g'.options.map optionKey := by
  obtain ⟨s1, hs1, ho1⟩ := generate_ok_structure t0 t1 req avail g h
  obtain ⟨s2, hs2, ho2⟩ := generate_ok_structure u0 u1 req avail g' h'
  have hrel : scoredSchedules t1 req avail =
      (scoredSchedules u1 req avail).map (List.map (retime t1)) :=
    mapM_scoreCombo_retime t1 u1 req.preferences (validCombos req avail)
  rw [hs1, hs2] at hrel
  have hs12 : s1 = s2.map (retime t1) := by
    simpa [Except.map] using hrel
  rw [ho1, ho2, hs12,
    ← List.map_mergeSort (r := scoreDescLE) (f := retime t1)
      (fun a _ b _ => rfl),
    ← List.map_take, minQualityFilter_map_retime, List.map_map]
  rfl

/-- Witness for C8: two runs at different wall-clock values agree on the
time-independent projection of their options. -/
theorem C8_witness :
    ∃ g g', generate_schedules 0 1 reqPlain availBasic = .ok g ∧
      generate_schedules 5 9 reqPlain availBasic = .ok g' ∧
      g.options.map optionKey = g'.options.map optionKey :=
  ⟨_, _, generate_basic_eq 0 1, generate_basic_eq 5 9,
   C8_exact_enumeration_deterministic 0 1 5 9 reqPlain availBasic _ _
     (generate_basic_eq 0 1) (generate_basic_eq 5 9)⟩

end CoursesAI
